import Mathlib

/-!
Verification development for the Social-Post-Generator repository.

The definitions below are a shallow embedding of the Python source:
 - `src/utils/helpers.py` (`create_hash`, `calculate_similarity`),
 - `src/modules/captions.py` (the `CaptionManager` operations),
 - `src/social_post_generator.py` (the legacy caption tracker copy and the
   website-analysis pipeline: `analyze_website`, `_fetch_page_with_retries`,
   `_discover_priority_pages`, `_extract_content_from_pages`,
   `_process_about_text`, `_process_services`).

Python strings are modelled as Lean `String`; Python dicts (which preserve
insertion order, replace values in place on key assignment, and append new
keys at the end) are modelled as association lists `List (String × α)`.
Python exceptions are modelled with `Except`; fallible results with `Option`.

Python float arithmetic on the small integer ratios appearing here is exact,
so similarity scores are modelled in `ℚ`.  The rational operations are made
semireducible so that concrete scores evaluate by `decide`.
-/

attribute [local semireducible] Rat.mul Rat.inv

/-- Python `needle` begins `hay` on character lists (used to build the
substring test of the Python `in` operator). -/
def charsLead : List Char → List Char → Bool
  | [], _ => true
  | _ :: _, [] => false
  | a :: as, b :: bs => a == b && charsLead as bs

/-- Scan of `hay` looking for `needle` at some position. -/
def strContainsAux (needle : List Char) : List Char → Bool
  | [] => needle.isEmpty
  | c :: cs => charsLead needle (c :: cs) || strContainsAux needle cs

/-- Python `needle in hay` substring test on strings. -/
def strContains (hay needle : String) : Bool :=
  strContainsAux needle.data hay.data

/-- Python `str.lower()` (character-wise lower-casing; kernel-reducible
counterpart of the library's byte-position-based mapping). -/
def pyToLower (s : String) : String :=
  String.mk (s.data.map Char.toLower)

/-- Python `str.strip()`: drop leading and trailing whitespace. -/
def pyStrip (s : String) : String :=
  String.mk (((s.data.dropWhile Char.isWhitespace).reverse.dropWhile Char.isWhitespace).reverse)

/-- Python `s.startswith(pre)`. -/
def strStarts (s pre : String) : Bool :=
  charsLead pre.data s.data

/-- Python `s[:n]` on strings (character slicing). -/
def pyTake (s : String) (n : Nat) : String :=
  String.mk (s.data.take n)

/-- Python `' '.join(parts)`. -/
def joinSpace : List String → String
  | [] => ""
  | [s] => s
  | s :: rest => s ++ " " ++ joinSpace rest

/-- Worker for `pySplit`: the first argument accumulates the current word
in reverse. -/
def pySplitChars (acc : List Char) : List Char → List String
  | [] => if acc.isEmpty then [] else [String.mk acc.reverse]
  | c :: cs =>
    if c.isWhitespace then
      if acc.isEmpty then pySplitChars [] cs
      else String.mk acc.reverse :: pySplitChars [] cs
    else pySplitChars (c :: acc) cs

/-- Python `str.split()` with no argument: split on whitespace runs,
discarding empty pieces. -/
def pySplit (s : String) : List String :=
  pySplitChars [] s.data

/-- Worker for Python `str.split('/')` (keeps empty pieces). -/
def splitSlashChars (acc : List Char) : List Char → List String
  | [] => [String.mk acc.reverse]
  | c :: cs =>
    if c == '/' then String.mk acc.reverse :: splitSlashChars [] cs
    else splitSlashChars (c :: acc) cs

/-- Number of occurrences of a character in a string
(Python `str.count` for a single-character needle). -/
def countChar (s : String) (c : Char) : Nat :=
  (s.data.filter (fun d => d == c)).length

/-- Python `str.rstrip('/')`: drop trailing slash characters. -/
def rstripSlash (s : String) : String :=
  String.mk ((s.data.reverse.dropWhile (fun c => c == '/')).reverse)

/-- URL normalization at the top of `analyze_website`
(src/social_post_generator.py line 885): prepend `https://` when no
scheme is present. -/
def normalizeUrl (url : String) : String :=
  if strStarts url "http://" || strStarts url "https://" then url
  else "https://" ++ url

/-- Python `url.split('/')[2]` (src/social_post_generator.py line 888): the domain
component of a scheme-qualified URL.  Out-of-range access is modelled by the
default `""` (for every URL produced by `normalizeUrl` the index exists). -/
def urlDomain (u : String) : String :=
  (splitSlashChars [] u.data).getD 2 ""

/-- The set of lower-cased whitespace-separated words of a text
(`set(text.lower().split())` in the Python source). -/
def wordSet (s : String) : Finset String :=
  (pySplit (pyToLower s)).toFinset

/-- Embedding of `create_hash` from src/utils/helpers.py lines 13-22: the MD5 digest of
`text.strip().lower()`.  The digest is modelled as the normalized text
itself: MD5 is treated as injective (collision-free), so two texts collide
exactly when their stripped lower-cased forms coincide. -/
def create_hash (text : String) : String :=
  pyToLower (pyStrip text)

/-- Embedding of `calculate_similarity` from src/utils/helpers.py lines 24-41: word-set
overlap `|w1 ∩ w2| / max |w1| |w2|`, with result `0.0` when either word set
is empty.  Python floats on these small integer ratios are exact, so the
result is modelled in `ℚ`. -/
def calculate_similarity (text1 text2 : String) : ℚ :=
  let words1 := wordSet text1
  let words2 := wordSet text2
  if words1.card = 0 ∨ words2.card = 0 then 0
  else ((words1 ∩ words2).card : ℚ) / (max words1.card words2.card : ℚ)

/-- One persisted record of the used-caption store (spec `UsedCaptionRecord`;
the dict value built in src/modules/captions.py lines 61-66). -/
structure CaptionRecord where
  text : String
  business : String
  used_date : String
  usage_count : Nat
deriving DecidableEq

/-- The persisted mapping from caption hash to record, modelled as an
insertion-ordered association list (Python dict semantics). -/
abbrev CaptionStore := List (String × CaptionRecord)

/-- Dict lookup: `store.get(k)` / `store[k]` / `k in store`. -/
def storeFind? : CaptionStore → String → Option CaptionRecord
  | [], _ => none
  | p :: rest, k => if p.1 = k then some p.2 else storeFind? rest k

/-- Dict assignment `store[k] = r`: replace in place if the key exists,
append at the end otherwise (Python dict semantics). -/
def storeInsert : CaptionStore → String → CaptionRecord → CaptionStore
  | [], k, r => [(k, r)]
  | p :: rest, k, r => if p.1 = k then (k, r) :: rest else p :: storeInsert rest k r

/-- Dict deletion `del store[k]`. -/
def storeErase : CaptionStore → String → CaptionStore
  | [], _ => []
  | p :: rest, k => if p.1 = k then storeErase rest k else p :: storeErase rest k

/-- Embedding of `CaptionManager.mark_caption_as_used` from src/modules/captions.py lines
44-68.  The JSON file round trip (`load_used_captions` / `save_used_captions`)
is modelled by passing the store in and out, with the save reported
successful; the wall-clock timestamp is passed explicitly. -/
def mark_caption_as_used (store : CaptionStore) (caption_text business timestamp : String) :
    Bool × CaptionStore :=
  if pyStrip caption_text = "" then (false, store)
  else
    let caption_hash := create_hash caption_text
    let prev := ((storeFind? store caption_hash).map CaptionRecord.usage_count).getD 0
    (true, storeInsert store caption_hash
      ⟨pyStrip caption_text, business, timestamp, prev + 1⟩)

/-- Embedding of `CaptionManager.unmark_caption_as_used` from src/modules/captions.py
lines 70-89. -/
def unmark_caption_as_used (store : CaptionStore) (caption_text : String) :
    Bool × CaptionStore :=
  if pyStrip caption_text = "" then (false, store)
  else
    let caption_hash := create_hash caption_text
    match storeFind? store caption_hash with
    | some _ => (true, storeErase store caption_hash)
    | none => (false, store)

/-- The similarity loop of `is_caption_duplicate` (src/modules/captions.py
lines 112-117): scan the stored records in order and return the first one
whose similarity to the caption meets or exceeds the threshold. -/
def scanSimilar : CaptionStore → String → ℚ → Option CaptionRecord
  | [], _, _ => none
  | p :: rest, t, threshold =>
    if calculate_similarity t p.2.text ≥ threshold then some p.2
    else scanSimilar rest t threshold

/-- Embedding of `CaptionManager.is_caption_duplicate` from src/modules/captions.py lines
91-119: empty guard, then exact-hash lookup, then a first-match similarity
scan in store order. -/
def is_caption_duplicate (store : CaptionStore) (caption_text : String) (threshold : ℚ) :
    Bool × Option CaptionRecord :=
  if pyStrip caption_text = "" then (false, none)
  else
    let caption_hash := create_hash caption_text
    match storeFind? store caption_hash with
    | some r => (true, some r)
    | none =>
      match scanSimilar store caption_text threshold with
      | some r => (true, some r)
      | none => (false, none)

/-- The legacy `mark_caption_as_used` from src/social_post_generator.py lines
168-185 (the monolith's own copy): same record construction but with no
empty-text guard; the Python function returns `None`, so only the updated
store is returned here. -/
def legacy_mark_caption_as_used (store : CaptionStore) (caption_text business timestamp : String) :
    CaptionStore :=
  let caption_hash := create_hash caption_text
  let prev := ((storeFind? store caption_hash).map CaptionRecord.usage_count).getD 0
  storeInsert store caption_hash ⟨pyStrip caption_text, business, timestamp, prev + 1⟩

/-- An anchor tag of the homepage: `href` models `link.get('href', '')` and
`text` models `link.get_text(strip=True)` (so `text` is already stripped). -/
structure Link where
  href : String
  text : String
deriving DecidableEq

/-- High-priority URL/anchor keywords (src/social_post_generator.py lines 967-970). -/
def highPriorityKeywords : List String :=
  ["about", "company", "mission", "vision", "story", "history", "who-we-are",
   "our-team", "leadership", "founders", "values", "culture"]

/-- Medium-priority keywords (lines 971-974). -/
def mediumPriorityKeywords : List String :=
  ["service", "product", "offering", "solution", "what-we-do", "expertise",
   "specialties", "capabilities", "features", "portfolio", "work"]

/-- Low-priority keywords (lines 975-978). -/
def lowPriorityKeywords : List String :=
  ["team", "staff", "experience", "case-studies", "testimonials",
   "reviews", "clients", "projects", "gallery", "showcase"]

/-- Navigation phrases matched against anchor text (lines 979-983). -/
def navPatterns : List String :=
  ["about us", "our services", "what we do", "our company", "our story",
   "meet the team", "our mission", "company info", "get to know us",
   "our expertise", "why choose us", "our approach", "company profile"]

/-- Skip substrings applied to the lower-cased href (lines 998-1000). -/
def skipPatterns : List String :=
  ["#", "mailto:", "tel:", "javascript:", ".pdf", ".jpg", ".png", ".gif",
   ".doc", ".docx", ".zip", ".csv", "login", "register", "cart", "checkout",
   "privacy", "terms", "cookie", "sitemap.xml", ".xml", "feed", "rss"]

/-- The score accumulation of `_discover_priority_pages` (lines 1004-1039):
each keyword occurring in the lower-cased href or anchor text contributes its
tier weight once, plus the navigation-pattern bonus and the depth bonus. -/
def linkScore (href ltext : String) : Nat :=
  15 * highPriorityKeywords.countP (fun k => strContains href k)
  + 10 * mediumPriorityKeywords.countP (fun k => strContains href k)
  + 7 * lowPriorityKeywords.countP (fun k => strContains href k)
  + 12 * highPriorityKeywords.countP (fun k => strContains ltext k)
  + 8 * mediumPriorityKeywords.countP (fun k => strContains ltext k)
  + 5 * lowPriorityKeywords.countP (fun k => strContains ltext k)
  + 20 * navPatterns.countP (fun p => strContains ltext p)
  + (if countChar href '/' ≤ 3 then 5
     else if countChar href '/' ≤ 5 then 2 else 0)

/-- Absolute-URL resolution for a lower-cased href (lines 989-995): relative
hrefs are glued onto the seed with its trailing slashes stripped; absolute
hrefs are kept when they start with `http` and contain the seed domain as a
substring; anything else is dropped. -/
def resolveHref (url base_domain href : String) : Option String :=
  if strStarts href "/" then some (rstripSlash url ++ href)
  else if strStarts href "http" && strContains href base_domain then some href
  else none

/-- One iteration of the link loop of `_discover_priority_pages` (lines
985-1042): lower-case the href and anchor text, resolve to an absolute URL,
apply the skip patterns, and score. Returns the `(full_url, score)` entry
the loop would record, or `none` when the link is dropped. -/
def scoreCandidate (url base_domain : String) (l : Link) : Option (String × Nat) :=
  match resolveHref url base_domain (pyToLower l.href) with
  | none => none
  | some full =>
    if skipPatterns.any (fun p => strContains (pyToLower l.href) p) then none
    else if linkScore (pyToLower l.href) (pyToLower l.text) > 0 then
      some (full, linkScore (pyToLower l.href) (pyToLower l.text))
    else none

/-- Recording one link's entry into the `page_scores` dict: the first
occurrence of a URL keeps its score (line 1041). -/
def collectStep (url base_domain : String) (acc : List (String × Nat)) (l : Link) :
    List (String × Nat) :=
  match scoreCandidate url base_domain l with
  | none => acc
  | some (full, sc) =>
    if acc.any (fun p => p.1 == full) then acc else acc ++ [(full, sc)]

/-- The `page_scores` dict built by the link loop, insertion-ordered. -/
def collectPageScores (url base_domain : String) (links : List Link) :
    List (String × Nat) :=
  links.foldl (collectStep url base_domain) []

/-- Embedding of `_discover_priority_pages` from src/social_post_generator.py lines
961-1046: examine the first 150 links, score them, sort by score descending
(Python `sorted` with `reverse=True` is stable; `insertionSort` with the
relation below places an element before exactly the later-seen elements of
strictly smaller score, which is the same order), and return the top 10
URLs. -/
def discover_priority_pages (url base_domain : String) (links : List Link) :
    List String :=
  ((((collectPageScores url base_domain (links.take 150)).insertionSort
      (fun a b => b.2 ≤ a.2)).take 10).map Prod.fst)

/-- One iteration of the dedup loop of `_process_about_text`
(src/social_post_generator.py lines 1134-1147).  The state is the pair
`(unique_about_texts, seen_phrases)`; a text with more than 10 words is
accepted unless its word-set overlap with some accepted page, divided by its
own word-set size, strictly exceeds 0.7; a text with at most 10 words is
ignored. -/
def process_about_step (st : List String × List (List String)) (text : String) :
    List String × List (List String) :=
  let words := pySplit (pyToLower text)
  if words.length > 10 then
    let overlap := st.2.any (fun seen_words =>
      decide ((((words.toFinset ∩ seen_words.toFinset).card : ℚ) /
        (words.toFinset.card : ℚ)) > 7/10))
    if overlap then st else (st.1 ++ [text], st.2 ++ [words])
  else st

/-- The accepted-renditions list built by `_process_about_text`. -/
def process_about_text_list (all_about_text : List String) : List String :=
  (all_about_text.foldl process_about_step ([], [])).1

/-- Embedding of `_process_about_text` from src/social_post_generator.py lines 1129-1149:
join the accepted texts with spaces and truncate to 1200 characters. -/
def process_about_text (all_about_text : List String) : String :=
  pyTake (joinSpace (process_about_text_list all_about_text)) 1200

/-- Call-to-action markers excluded from services (line 1155). -/
def serviceSkipWords : List String :=
  ["read more", "learn more", "contact", "click here", "view all"]

/-- The case-insensitive order-preserving dedup loop of `_process_services`
(lines 1159-1165); the first argument is the `seen_services` accumulator. -/
def dedupServices (seen : List String) : List String → List String
  | [] => []
  | s :: rest =>
    if seen.contains (pyToLower s) then dedupServices seen rest
    else s :: dedupServices (seen ++ [pyToLower s]) rest

/-- Embedding of `_process_services` from src/social_post_generator.py lines 1151-1167. -/
def process_services (all_services : List String) : List String :=
  (dedupServices []
    (all_services.filter
      (fun s => !(serviceSkipWords.any (fun w => strContains (pyToLower s) w))))).take 15

/-- A fetched HTML page.  BeautifulSoup accessors are abstracted as fields:
`links` models `soup.find_all('a', href=True)`; `titleTag`,
`metaDescription`, `metaKeywords` model the optional title tag text and meta
contents; `aboutSections` models the ordered texts
(`section.get_text(strip=True)`) of the about/mission/main elements collected
in `_extract_content_from_pages` lines 1079-1093; `serviceSections` likewise
for the service elements of lines 1107-1113; `images` models the result of
`extract_website_images` on the page. -/
structure Page where
  links : List Link
  titleTag : Option String
  metaDescription : Option String
  metaKeywords : Option String
  aboutSections : List String
  serviceSections : List String
  images : List String
deriving DecidableEq

/-- The outcome of one `requests.get` attempt: a successful parsed page, an
HTTP error status raised by `raise_for_status`, or any other exception
(timeout, connection error, parse failure). -/
inductive FetchOutcome where
  | success (page : Page)
  | httpError (code : Nat)
  | netExc
deriving DecidableEq

/-- Whether an attempt outcome is a successful response. -/
def FetchOutcome.isSuccess : FetchOutcome → Bool
  | .success _ => true
  | _ => false

/-- Embedding of `_fetch_page_with_retries` from src/social_post_generator.py lines
927-959, over the list of outcomes of the successive header attempts (the
source tries exactly 3 header sets).  `Except.error` models an exception
escaping the function, `.ok none` the `return None` fall-through.  The 403
branch tests `response and response.status_code == 403`, and a `requests`
response is truthy only when its status is below 400, so the condition is
modelled as `code < 400 && code == 403` — unsatisfiable, meaning every HTTP
error propagates as an exception. -/
def fetch_page_with_retries : List FetchOutcome → Except Unit (Option Page)
  | [] => .ok none
  | o :: rest =>
    match o with
    | .success p => .ok (some p)
    | .httpError c =>
      if c < 400 && c == 403 then fetch_page_with_retries rest else .error ()
    | .netExc => fetch_page_with_retries rest

/-- The analysis dict assembled by `analyze_website` (initialized in
`_initialize_analysis` lines 1048-1070, updated with the merged content). -/
structure Analysis where
  title : String
  description : String
  keywords : String
  about_text : String
  services : List String
  tone : String
  pages_analyzed : List String
  images : List String
deriving DecidableEq

/-- The per-page about-text assembly of `_extract_content_from_pages` lines
1095-1104: keep up to 8 section texts longer than 50 characters and free of
boilerplate markers, join them, and keep the page's combined text when it is
nonempty and longer than 30 characters. -/
def pageAboutText (p : Page) : Option String :=
  let kept := (p.aboutSections.take 8).filter
    (fun t => decide (t.length > 50) &&
      !((["cookie", "privacy", "terms", "menu", "navigation"] : List String).any
        (fun w => strContains (pyToLower t) w)))
  let combined := joinSpace kept
  if combined != "" && decide (combined.length > 30) then some combined else none

/-- Embedding of `_extract_content_from_pages` from src/social_post_generator.py lines
1072-1127: gather each page's combined about text and its service snippets
(up to 12 per page, length strictly between 15 and 200), then merge. -/
def extract_content_from_pages (pages : List Page) : String × List String :=
  let all_about := pages.filterMap pageAboutText
  let all_services := pages.foldl
    (fun acc p => acc ++ ((p.serviceSections.take 12).filter
      (fun t => decide (15 < t.length) && decide (t.length < 200)))) []
  (process_about_text all_about, process_services all_services)

/-- The candidate-page fetch loop of `analyze_website` lines 904-913: fetch
each priority page, appending the page and its URL on success; failures
(including exceptions) are skipped silently. -/
def fetchPriorityLoop (net : String → List FetchOutcome) :
    List String → List Page → List String → List Page × List String
  | [], soups, analyzed => (soups, analyzed)
  | u :: rest, soups, analyzed =>
    match fetch_page_with_retries ((net u).take 3) with
    | .ok (some p) => fetchPriorityLoop net rest (soups ++ [p]) (analyzed ++ [u])
    | _ => fetchPriorityLoop net rest soups analyzed

/-- The body of the `try` block of `analyze_website` (lines 883-921); `net`
gives, per URL, the outcomes of the successive header attempts. -/
def analyze_website_body (net : String → List FetchOutcome) (url0 : String) :
    Except Unit Analysis :=
  let url := normalizeUrl url0
  let base_domain := urlDomain url
  match fetch_page_with_retries ((net url).take 3) with
  | .error e => .error e
  | .ok none => .error ()
  | .ok (some mainPage) =>
    let priority := discover_priority_pages url base_domain mainPage.links
    let fetched := fetchPriorityLoop net priority [mainPage] [url]
    let content := extract_content_from_pages fetched.1
    .ok ⟨(mainPage.titleTag).getD "", (mainPage.metaDescription).getD "",
      (mainPage.metaKeywords).getD "", content.1, content.2, "professional",
      fetched.2, mainPage.images⟩

/-- Embedding of `analyze_website` from src/social_post_generator.py lines 878-925: empty
URLs are rejected up front, and the enclosing `try/except` turns every
escaping exception into `None` (after the user-facing error message of
`_handle_website_analysis_error`). -/
def analyze_website (net : String → List FetchOutcome) (url : String) :
    Option Analysis :=
  if url = "" then none
  else
    match analyze_website_body net url with
    | .ok a => some a
    | .error _ => none

example : strContains "https://example.com.evil.net/about" "example.com" = true := by decide
example : strContains "abc" "" = true := by decide
example : strContains "" "a" = false := by decide
example : pySplit "  great   caption!  " = ["great", "caption!"] := by decide
example : create_hash "  Great Caption!  " = "great caption!" := by decide
example : calculate_similarity "hello" "hello hello" = 1 := by decide
example : calculate_similarity " " " " = 0 := by decide
example : calculate_similarity "a b c d" "a b x y" = 1/2 := by decide

example : discover_priority_pages "https://example.com" "example.com"
    [⟨"/about", "About Us"⟩, ⟨"https://example.com.evil.net/about", "about"⟩]
    = ["https://example.com/about", "https://example.com.evil.net/about"] := by decide
example : urlDomain "https://example.com.evil.net/about" = "example.com.evil.net" := by decide
example : urlDomain "https://example.com" = "example.com" := by decide
example : process_about_text_list
    ["a b c d e f g p q r r", "a b c d e f g w x y y"]
    = ["a b c d e f g p q r r", "a b c d e f g w x y y"] := by decide
example : process_about_text_list
    ["a b c d e f g h p q r r", "a b c d e f g h w x y y"]
    = ["a b c d e f g h p q r r"] := by decide
example :
    (is_caption_duplicate
      (unmark_caption_as_used
        (mark_caption_as_used
          (mark_caption_as_used [] "hello hello" "Acme" "2024-01-01").2
          "hello" "Acme" "2024-01-02").2
        "hello").2
      "hello" (8/10)).1 = true := by decide

example :
    analyze_website (fun _ => [.success ⟨[], none, none, none, [], [], []⟩])
      "https://example.com"
    = some ⟨"", "", "", "", [], "professional", ["https://example.com"], []⟩ := by decide
example :
    analyze_website (fun _ => [.httpError 403, .httpError 403, .httpError 403])
      "https://example.com" = none := by decide
example :
    analyze_website
      (fun u => if u == "https://example.com" then [.success ⟨[⟨"/about", "About Us"⟩], none, none, none, [], [], []⟩]
        else [.success ⟨[], none, none, none, ["x"], [], []⟩])
      "example.com"
    = some ⟨"", "", "", "", [], "professional",
        ["https://example.com", "https://example.com/about"], []⟩ := by decide

/-! ### Store lemmas -/

/-- Number of entries of the store carrying a given key. -/
def countKey : CaptionStore → String → Nat
  | [], _ => 0
  | p :: rest, k => (if p.1 = k then 1 else 0) + countKey rest k

theorem storeFind?_eq_none_iff : ∀ {s : CaptionStore} {k : String},
    storeFind? s k = none ↔ ∀ p ∈ s, p.1 ≠ k
  | [], _ => by simp [storeFind?]
  | p :: rest, k => by
    by_cases h : p.1 = k
    · simp [storeFind?, h]
    · simp [storeFind?, h, storeFind?_eq_none_iff (s := rest) (k := k)]

theorem storeInsert_of_absent : ∀ (s : CaptionStore) (k : String) (r : CaptionRecord),
    storeFind? s k = none → storeInsert s k r = s ++ [(k, r)]
  | [], _, _, _ => rfl
  | p :: rest, k, r, h => by
    have hp : ¬ p.1 = k := by
      intro he
      simp [storeFind?, he] at h
    have hrest : storeFind? rest k = none := by
      simpa [storeFind?, hp] using h
    simp [storeInsert, hp, storeInsert_of_absent rest k r hrest]

theorem storeFind?_append_of_absent : ∀ (s t : CaptionStore) (k : String),
    storeFind? s k = none → storeFind? (s ++ t) k = storeFind? t k
  | [], _, _, _ => rfl
  | p :: rest, t, k, h => by
    have hp : ¬ p.1 = k := by
      intro he
      simp [storeFind?, he] at h
    have hrest : storeFind? rest k = none := by
      simpa [storeFind?, hp] using h
    simp [storeFind?, hp, storeFind?_append_of_absent rest t k hrest]

theorem storeFind?_singleton_self (k : String) (r : CaptionRecord) :
    storeFind? [(k, r)] k = some r := by
  simp [storeFind?]

theorem storeErase_append_singleton : ∀ (s : CaptionStore) (k : String) (r : CaptionRecord),
    storeFind? s k = none → storeErase (s ++ [(k, r)]) k = s
  | [], k, r, _ => by simp [storeErase]
  | p :: rest, k, r, h => by
    have hp : ¬ p.1 = k := by
      intro he
      simp [storeFind?, he] at h
    have hrest : storeFind? rest k = none := by
      simpa [storeFind?, hp] using h
    simp [storeErase, hp, storeErase_append_singleton rest k r hrest]

theorem storeInsert_append_singleton : ∀ (s : CaptionStore) (k : String) (r r' : CaptionRecord),
    storeFind? s k = none → storeInsert (s ++ [(k, r)]) k r' = s ++ [(k, r')]
  | [], k, r, r', _ => by simp [storeInsert]
  | p :: rest, k, r, r', h => by
    have hp : ¬ p.1 = k := by
      intro he
      simp [storeFind?, he] at h
    have hrest : storeFind? rest k = none := by
      simpa [storeFind?, hp] using h
    simp [storeInsert, hp, storeInsert_append_singleton rest k r r' hrest]

theorem countKey_append_singleton : ∀ (s : CaptionStore) (k : String) (r : CaptionRecord),
    storeFind? s k = none → countKey (s ++ [(k, r)]) k = 1
  | [], k, r, _ => by simp [countKey]
  | p :: rest, k, r, h => by
    have hp : ¬ p.1 = k := by
      intro he
      simp [storeFind?, he] at h
    have hrest : storeFind? rest k = none := by
      simpa [storeFind?, hp] using h
    simp [countKey, hp, countKey_append_singleton rest k r hrest]

/-! ### Fetch and discovery lemmas -/

theorem fetch_no_success : ∀ (outs : List FetchOutcome),
    (∀ o ∈ outs, o.isSuccess = false) → ∀ p, fetch_page_with_retries outs ≠ .ok (some p)
  | [], _, p => by simp [fetch_page_with_retries]
  | o :: rest, h, p => by
    have hrest : ∀ o ∈ rest, o.isSuccess = false := fun o ho => h o (by simp [ho])
    cases o with
    | success q =>
      have := h (.success q) (by simp)
      simp [FetchOutcome.isSuccess] at this
    | httpError c =>
      by_cases hc : (decide (c < 400) && (c == 403)) = true
      · simpa [fetch_page_with_retries, hc] using fetch_no_success rest hrest p
      · simp [fetch_page_with_retries, hc]
    | netExc =>
      simpa [fetch_page_with_retries] using fetch_no_success rest hrest p

theorem fetchLoop_analyzed (net : String → List FetchOutcome) :
    ∀ (urls : List String) (soups : List Page) (analyzed : List String),
    ∃ suffix, (fetchPriorityLoop net urls soups analyzed).2 = analyzed ++ suffix ∧
      suffix.length ≤ urls.length
  | [], soups, analyzed => ⟨[], by simp [fetchPriorityLoop]⟩
  | u :: rest, soups, analyzed => by
    cases hf : fetch_page_with_retries ((net u).take 3) with
    | error e =>
      obtain ⟨suffix, hs, hl⟩ := fetchLoop_analyzed net rest soups analyzed
      exact ⟨suffix, by simp [fetchPriorityLoop, hf, hs], Nat.le_succ_of_le hl⟩
    | ok po =>
      cases po with
      | none =>
        obtain ⟨suffix, hs, hl⟩ := fetchLoop_analyzed net rest soups analyzed
        exact ⟨suffix, by simp [fetchPriorityLoop, hf, hs], Nat.le_succ_of_le hl⟩
      | some p =>
        obtain ⟨suffix, hs, hl⟩ :=
          fetchLoop_analyzed net rest (soups ++ [p]) (analyzed ++ [u])
        refine ⟨u :: suffix, ?_, by simpa using Nat.succ_le_succ hl⟩
        simp [fetchPriorityLoop, hf, hs]

theorem resolveHref_shape {url base_domain href full : String}
    (h : resolveHref url base_domain href = some full) :
    (∃ rest, full = rstripSlash url ++ rest) ∨ strContains full base_domain = true := by
  unfold resolveHref at h
  split_ifs at h with h1 h2
  · exact Or.inl ⟨href, (Option.some_inj.1 h).symm⟩
  · rw [Bool.and_eq_true] at h2
    exact Or.inr ((Option.some_inj.1 h) ▸ h2.2)

theorem scoreCandidate_shape {url base_domain : String} {l : Link} {full : String} {sc : Nat}
    (h : scoreCandidate url base_domain l = some (full, sc)) :
    (∃ rest, full = rstripSlash url ++ rest) ∨ strContains full base_domain = true := by
  unfold scoreCandidate at h
  cases hr : resolveHref url base_domain (pyToLower l.href) with
  | none => rw [hr] at h; exact absurd h (by simp)
  | some full' =>
    rw [hr] at h
    split_ifs at h with hskip hscore
    · obtain ⟨he, -⟩ := Prod.mk.injEq .. ▸ Option.some_inj.1 h
      exact he ▸ resolveHref_shape hr

theorem collectFold_shape {url base_domain : String} :
    ∀ (links : List Link) (acc : List (String × Nat)),
    (∀ p ∈ acc, (∃ rest, p.1 = rstripSlash url ++ rest) ∨ strContains p.1 base_domain = true) →
    ∀ p ∈ links.foldl (collectStep url base_domain) acc,
      (∃ rest, p.1 = rstripSlash url ++ rest) ∨ strContains p.1 base_domain = true
  | [], acc, hacc => by simpa using hacc
  | l :: rest, acc, hacc => by
    apply collectFold_shape rest
    intro p hp
    unfold collectStep at hp
    cases hs : scoreCandidate url base_domain l with
    | none =>
      rw [hs] at hp
      exact hacc p hp
    | some q =>
      obtain ⟨full, sc⟩ := q
      rw [hs] at hp
      replace hp : p ∈ (if (acc.any fun p => p.1 == full) = true then acc
        else acc ++ [(full, sc)]) := hp
      by_cases hmem : acc.any (fun p => p.1 == full) = true
      · rw [if_pos hmem] at hp
        exact hacc p hp
      · rw [if_neg hmem] at hp
        rcases List.mem_append.1 hp with hin | hone
        · exact hacc p hin
        · have he : p = (full, sc) := by simpa using hone
          subst he
          exact scoreCandidate_shape hs

/-! ### Claim theorems: caption duplicate tracker -/

/-- C2: caption identity is the digest of the stripped lower-cased text.
For two texts with the same normalized form, starting from a store with no
record under that hash, marking both succeeds and leaves exactly one stored
record for the hash, with `usage_count = 2` and one more entry than before —
not two records. -/
theorem mark_twice_single_record (store : CaptionStore) (t1 t2 b1 b2 ts1 ts2 : String)
    (hnorm : create_hash t1 = create_hash t2)
    (h1 : pyStrip t1 ≠ "") (h2 : pyStrip t2 ≠ "")
    (habs : storeFind? store (create_hash t1) = none) :
    (mark_caption_as_used store t1 b1 ts1).1 = true ∧
    (mark_caption_as_used (mark_caption_as_used store t1 b1 ts1).2 t2 b2 ts2).1 = true ∧
    storeFind? (mark_caption_as_used (mark_caption_as_used store t1 b1 ts1).2 t2 b2 ts2).2
      (create_hash t1) = some ⟨pyStrip t2, b2, ts2, 2⟩ ∧
    (mark_caption_as_used (mark_caption_as_used store t1 b1 ts1).2 t2 b2 ts2).2.length
      = store.length + 1 ∧
    countKey (mark_caption_as_used (mark_caption_as_used store t1 b1 ts1).2 t2 b2 ts2).2
      (create_hash t1) = 1 := by
  have e1 : mark_caption_as_used store t1 b1 ts1
      = (true, store ++ [(create_hash t1, ⟨pyStrip t1, b1, ts1, 1⟩)]) := by
    simp [mark_caption_as_used, h1, habs, storeInsert_of_absent store _ _ habs]
  have f1 : storeFind? (store ++ [(create_hash t1, ⟨pyStrip t1, b1, ts1, 1⟩)])
      (create_hash t1) = some ⟨pyStrip t1, b1, ts1, 1⟩ := by
    rw [storeFind?_append_of_absent store _ _ habs]
    exact storeFind?_singleton_self _ _
  have e2 : mark_caption_as_used
        (store ++ [(create_hash t1, ⟨pyStrip t1, b1, ts1, 1⟩)]) t2 b2 ts2
      = (true, store ++ [(create_hash t1, ⟨pyStrip t2, b2, ts2, 2⟩)]) := by
    simp only [mark_caption_as_used, if_neg h2, ← hnorm, f1, Option.map_some',
      Option.getD_some]
    rw [storeInsert_append_singleton store _ _ _ habs]
  refine ⟨by rw [e1], ?_, ?_, ?_, ?_⟩
  · rw [e1]
    simp only []
    rw [e2]
  · rw [e1]
    simp only []
    rw [e2]
    simp only []
    rw [storeFind?_append_of_absent store _ _ habs]
    exact storeFind?_singleton_self _ _
  · rw [e1]
    simp only []
    rw [e2]
    simp [List.length_append]
  · rw [e1]
    simp only []
    rw [e2]
    simp only []
    exact countKey_append_singleton store _ _ habs

/-- C2 witness: the spec's example pair, marked twice from the empty store. -/
theorem mark_twice_single_record_witness :
    (mark_caption_as_used [] "Great Caption!" "Acme" "2024-01-01").1 = true ∧
    (mark_caption_as_used (mark_caption_as_used [] "Great Caption!" "Acme" "2024-01-01").2
      "  great caption!  " "Acme" "2024-01-02").1 = true ∧
    storeFind? (mark_caption_as_used
        (mark_caption_as_used [] "Great Caption!" "Acme" "2024-01-01").2
        "  great caption!  " "Acme" "2024-01-02").2
      (create_hash "Great Caption!") = some ⟨"great caption!", "Acme", "2024-01-02", 2⟩ ∧
    (mark_caption_as_used (mark_caption_as_used [] "Great Caption!" "Acme" "2024-01-01").2
      "  great caption!  " "Acme" "2024-01-02").2.length = 1 ∧
    countKey (mark_caption_as_used
        (mark_caption_as_used [] "Great Caption!" "Acme" "2024-01-01").2
        "  great caption!  " "Acme" "2024-01-02").2
      (create_hash "Great Caption!") = 1 :=
  mark_twice_single_record [] "Great Caption!" "  great caption!  " "Acme" "Acme"
    "2024-01-01" "2024-01-02" (by decide) (by decide) (by decide) rfl

/-- C4 counterexample: the legacy `mark_caption_as_used` in
src/social_post_generator.py (lines 168-185) has no empty-text guard — called
with the empty caption it inserts a record under the hash of the empty
string, so the persisted store does change. -/
theorem empty_caption_guard_cex :
    legacy_mark_caption_as_used [] "" "Acme" "2024-01-01"
      = [("", ⟨"", "Acme", "2024-01-01", 1⟩)] ∧
    legacy_mark_caption_as_used [] "" "Acme" "2024-01-01" ≠ [] := by
  exact ⟨by decide, by decide⟩

/-- C4 (amended): for the `CaptionManager` implementation in
src/modules/captions.py, a caption whose stripped text is empty is rejected:
`mark_caption_as_used` returns `false` with the store unchanged, and
`is_caption_duplicate` returns `(false, none)`; neither call touches the
persisted state. -/
theorem empty_caption_guard (store : CaptionStore) (t b ts : String) (threshold : ℚ)
    (h : pyStrip t = "") :
    mark_caption_as_used store t b ts = (false, store) ∧
    is_caption_duplicate store t threshold = (false, none) := by
  exact ⟨by simp [mark_caption_as_used, h], by simp [is_caption_duplicate, h]⟩

/-- C4 witness: `""` and `"   "` against a nonempty store. -/
theorem empty_caption_guard_witness :
    mark_caption_as_used [("x", ⟨"x", "b", "t", 1⟩)] "" "Acme" "2024-01-01"
      = (false, [("x", ⟨"x", "b", "t", 1⟩)]) ∧
    is_caption_duplicate [("x", ⟨"x", "b", "t", 1⟩)] "" (8/10) = (false, none) ∧
    mark_caption_as_used [("x", ⟨"x", "b", "t", 1⟩)] "   " "Acme" "2024-01-01"
      = (false, [("x", ⟨"x", "b", "t", 1⟩)]) :=
  ⟨(empty_caption_guard [("x", ⟨"x", "b", "t", 1⟩)] "" "Acme" "2024-01-01" (8/10)
      (by decide)).1,
   (empty_caption_guard [("x", ⟨"x", "b", "t", 1⟩)] "" "Acme" "2024-01-01" (8/10)
      (by decide)).2,
   (empty_caption_guard [("x", ⟨"x", "b", "t", 1⟩)] "   " "Acme" "2024-01-01" (8/10)
      (by decide)).1⟩

/-- C5: for any caption whose hash is stored, `is_caption_duplicate` answers
`(true, r)` with `r` the stored record, through the exact-hash path, and the
answer does not depend on the threshold. -/
theorem duplicate_exact_match (store : CaptionStore) (t : String) (θ₁ θ₂ : ℚ)
    (r : CaptionRecord) (ht : pyStrip t ≠ "")
    (hr : storeFind? store (create_hash t) = some r) :
    is_caption_duplicate store t θ₁ = (true, some r) ∧
    is_caption_duplicate store t θ₁ = is_caption_duplicate store t θ₂ := by
  have e : ∀ θ : ℚ, is_caption_duplicate store t θ = (true, some r) := by
    intro θ
    simp [is_caption_duplicate, ht, hr]
  exact ⟨e θ₁, (e θ₁).trans (e θ₂).symm⟩

/-- C5 witness: a previously marked caption is recognized with two different
thresholds. -/
theorem duplicate_exact_match_witness :
    is_caption_duplicate (mark_caption_as_used [] "X" "Acme" "t0").2 "X" (8/10)
      = (true, some ⟨"X", "Acme", "t0", 1⟩) ∧
    is_caption_duplicate (mark_caption_as_used [] "X" "Acme" "t0").2 "X" (8/10)
      = is_caption_duplicate (mark_caption_as_used [] "X" "Acme" "t0").2 "X" (1/10) :=
  duplicate_exact_match (mark_caption_as_used [] "X" "Acme" "t0").2 "X" (8/10) (1/10)
    ⟨"X", "Acme", "t0", 1⟩ (by decide) (by decide)

/-- C9 counterexample: starting from a reachable store that already holds
the caption `"hello hello"`, marking `"hello"` and unmarking it does not
restore `is_caption_duplicate "hello" = (false, none)`: the similarity scan
still reports the stored `"hello hello"` record (overlap 1 ≥ 0.8). -/
theorem unmark_reverses_mark_cex :
    is_caption_duplicate
      (unmark_caption_as_used
        (mark_caption_as_used
          (mark_caption_as_used [] "hello hello" "Acme" "2024-01-01").2
          "hello" "Acme" "2024-01-02").2
        "hello").2
      "hello" (8/10)
    = (true, some ⟨"hello hello", "Acme", "2024-01-01", 1⟩) := by
  decide

/-- C9 (amended): from any store state in which `is_caption_duplicate`
already answers `(false, none)` for the caption, marking it used and then
unmarking it returns the tracker to a state in which `is_caption_duplicate`
answers `(false, none)` again. -/
theorem unmark_reverses_mark (store : CaptionStore) (t b ts : String) (threshold : ℚ)
    (h : is_caption_duplicate store t threshold = (false, none)) :
    is_caption_duplicate
      (unmark_caption_as_used (mark_caption_as_used store t b ts).2 t).2 t threshold
      = (false, none) := by
  by_cases hstrip : pyStrip t = ""
  · simpa [mark_caption_as_used, unmark_caption_as_used, hstrip] using h
  · have hfind : storeFind? store (create_hash t) = none := by
      cases hf : storeFind? store (create_hash t) with
      | none => rfl
      | some r => simp [is_caption_duplicate, hstrip, hf] at h
    have e1 : (mark_caption_as_used store t b ts).2
        = store ++ [(create_hash t, ⟨pyStrip t, b, ts, 1⟩)] := by
      simp [mark_caption_as_used, hstrip, hfind, storeInsert_of_absent store _ _ hfind]
    have f1 : storeFind? (store ++ [(create_hash t, ⟨pyStrip t, b, ts, 1⟩)])
        (create_hash t) = some ⟨pyStrip t, b, ts, 1⟩ := by
      rw [storeFind?_append_of_absent store _ _ hfind]
      exact storeFind?_singleton_self _ _
    have e2 : (unmark_caption_as_used
        (store ++ [(create_hash t, ⟨pyStrip t, b, ts, 1⟩)]) t).2 = store := by
      simp only [unmark_caption_as_used, if_neg hstrip, f1]
      exact storeErase_append_singleton store _ _ hfind
    rw [e1, e2]
    exact h

/-- C9 witness: mark then unmark `"hello"` from the empty store. -/
theorem unmark_reverses_mark_witness :
    is_caption_duplicate
      (unmark_caption_as_used (mark_caption_as_used [] "hello" "Acme" "t0").2 "hello").2
      "hello" (8/10) = (false, none) :=
  unmark_reverses_mark [] "hello" "Acme" "t0" (8/10) (by decide)

/-! ### Claim theorems: similarity -/

/-- C8 counterexample: `" "` is a non-empty string, yet
`calculate_similarity " " " "` is `0.0`, not `1.0` — the guard fires on the
empty word set, so self-similarity 1 fails for non-empty all-whitespace
input. -/
theorem similarity_self_cex :
    (" " : String) ≠ "" ∧ calculate_similarity " " " " ≠ 1 ∧
    calculate_similarity " " " " = 0 := by
  exact ⟨by decide, by decide, by decide⟩

/-- C8 (amended): `calculate_similarity` is symmetric for all inputs, and
self-similarity is exactly 1 for every text with at least one
whitespace-separated word (rather than for every non-empty string). -/
theorem similarity_symm_and_self :
    (∀ a b : String, calculate_similarity a b = calculate_similarity b a) ∧
    (∀ a : String, (wordSet a).card ≠ 0 → calculate_similarity a a = 1) := by
  constructor
  · intro a b
    unfold calculate_similarity
    rcases eq_or_ne (wordSet a).card 0 with ha | ha <;>
      rcases eq_or_ne (wordSet b).card 0 with hb | hb <;>
        simp [ha, hb, Finset.inter_comm, Nat.max_comm, max_comm]
  · intro a ha
    unfold calculate_similarity
    rw [if_neg (by simp [ha]), Finset.inter_self, sup_idem]
    exact div_self (by exact_mod_cast ha)

/-- C8 witness: symmetry on a concrete pair and self-similarity on a word. -/
theorem similarity_symm_and_self_witness :
    calculate_similarity "a b" "b c" = calculate_similarity "b c" "a b" ∧
    calculate_similarity "Hello" "Hello" = 1 :=
  ⟨similarity_symm_and_self.1 "a b" "b c",
   similarity_symm_and_self.2 "Hello" (by decide)⟩

/-- C10: `calculate_similarity` is total — the division is guarded, the
result always lies in `[0, 1]`, and it is exactly 0 whenever either argument
tokenizes to no words. -/
theorem similarity_total_bounds (t1 t2 : String) :
    0 ≤ calculate_similarity t1 t2 ∧ calculate_similarity t1 t2 ≤ 1 ∧
    ((wordSet t1).card = 0 ∨ (wordSet t2).card = 0 → calculate_similarity t1 t2 = 0) := by
  by_cases h : (wordSet t1).card = 0 ∨ (wordSet t2).card = 0
  · refine ⟨?_, ?_, fun _ => ?_⟩ <;>
      · unfold calculate_similarity
        rw [if_pos h]
        try norm_num
  · have h1 : (wordSet t1).card ≠ 0 := fun hc => h (Or.inl hc)
    have hposn : 0 < max (wordSet t1).card (wordSet t2).card :=
      lt_of_lt_of_le (Nat.pos_of_ne_zero h1) (le_max_left _ _)
    have hpos : (0 : ℚ) < (max (wordSet t1).card (wordSet t2).card : ℚ) := by
      exact_mod_cast hposn
    refine ⟨?_, ?_, fun hc => absurd hc h⟩
    · unfold calculate_similarity
      rw [if_neg h]
      exact div_nonneg (by positivity) (le_of_lt hpos)
    · unfold calculate_similarity
      rw [if_neg h, div_le_one hpos]
      have hsub : (wordSet t1 ∩ wordSet t2).card ≤ max (wordSet t1).card (wordSet t2).card :=
        le_trans (Finset.card_le_card Finset.inter_subset_left) (le_max_left _ _)
      exact_mod_cast hsub

/-- C10 witness: bounds at a concrete pair and the zero case for a
no-word argument. -/
theorem similarity_total_bounds_witness :
    0 ≤ calculate_similarity "a b" "b c" ∧ calculate_similarity "a b" "b c" ≤ 1 ∧
    calculate_similarity "" "x" = 0 :=
  ⟨(similarity_total_bounds "a b" "b c").1, (similarity_total_bounds "a b" "b c").2.1,
   (similarity_total_bounds "" "x").2.2 (by decide)⟩

/-! ### Claim theorems: page discovery and about-text merging -/

/-- C1 counterexample: the "same-domain" test of `_discover_priority_pages`
is the substring check `base_domain in href`, so a cross-domain absolute link
whose text contains the seed domain (here `example.com.evil.net` for seed
domain `example.com`) is kept: the candidate list of a homepage mixing
same-domain and cross-domain links contains a URL on a different domain. -/
theorem discovery_same_domain_cex :
    "https://example.com.evil.net/about" ∈
      discover_priority_pages "https://example.com" (urlDomain "https://example.com")
        [⟨"/about", "About Us"⟩, ⟨"https://example.com.evil.net/about", "about"⟩] ∧
    urlDomain "https://example.com.evil.net/about" ≠ urlDomain "https://example.com" := by
  exact ⟨by decide, by decide⟩

/-- C1 (amended): every URL in the discovered candidate list is either the
seed URL (trailing slashes stripped) extended by a relative href, or an
absolute lower-cased href containing the seed domain as a substring; absolute
links not containing the seed domain are excluded.  True same-domain-ness is
not guaranteed (see the counterexample). -/
theorem discovery_candidate_url_shape (url base_domain : String) (links : List Link)
    (c : String) (hc : c ∈ discover_priority_pages url base_domain links) :
    (∃ rest, c = rstripSlash url ++ rest) ∨ strContains c base_domain = true := by
  unfold discover_priority_pages at hc
  obtain ⟨p, hp, he⟩ := List.mem_map.1 hc
  have hp' : p ∈ (collectPageScores url base_domain (links.take 150)).insertionSort
      (fun a b => b.2 ≤ a.2) := List.mem_of_mem_take hp
  have hp'' : p ∈ collectPageScores url base_domain (links.take 150) :=
    (List.perm_insertionSort (fun a b => b.2 ≤ a.2)
      (collectPageScores url base_domain (links.take 150))).mem_iff.1 hp'
  have hshape := collectFold_shape (links.take 150) [] (by simp) p hp''
  exact he ▸ hshape

/-- C1 amended-claim witness: the same-domain candidate produced from a
relative link. -/
theorem discovery_candidate_url_shape_witness :
    (∃ rest, "https://example.com/about" = rstripSlash "https://example.com" ++ rest) ∨
      strContains "https://example.com/about" "example.com" = true :=
  discovery_candidate_url_shape "https://example.com" "example.com"
    [⟨"/about", "About Us"⟩] "https://example.com/about" (by decide)

/-- C3 counterexample: two about texts of 11 words whose overlap is exactly
70% (14-word multiset view: set sizes 10, intersection 7, ratio 7/10).  The
code discards only on overlap strictly greater than 0.7, so at exactly 70%
both renditions are kept and the merged text contains the two of them. -/
theorem about_dedup_cex :
    (((wordSet "a b c d e f g w x y y" ∩ wordSet "a b c d e f g p q r r").card : ℚ) /
      ((wordSet "a b c d e f g w x y y").card : ℚ) = 7/10) ∧
    process_about_text_list ["a b c d e f g p q r r", "a b c d e f g w x y y"]
      = ["a b c d e f g p q r r", "a b c d e f g w x y y"] ∧
    process_about_text ["a b c d e f g p q r r", "a b c d e f g w x y y"]
      = "a b c d e f g p q r r a b c d e f g w x y y" := by
  exact ⟨by decide, by decide, by decide⟩

/-- The discard rule of the about-text dedup loop: a candidate with more
than 10 words is dropped exactly when some already-accepted page's word list
overlaps it on strictly more than 70% of the candidate's word set. -/
theorem process_about_step_discard (uniq : List String) (seen : List (List String))
    (text : String) (hlen : (pySplit (pyToLower text)).length > 10)
    (hov : ∃ sw ∈ seen,
      (((pySplit (pyToLower text)).toFinset ∩ sw.toFinset).card : ℚ) /
        ((pySplit (pyToLower text)).toFinset.card : ℚ) > 7/10) :
    process_about_step (uniq, seen) text = (uniq, seen) := by
  unfold process_about_step
  rw [if_pos hlen]
  have hany : (seen.any fun sw =>
      decide ((((pySplit (pyToLower text)).toFinset ∩ sw.toFinset).card : ℚ) /
        ((pySplit (pyToLower text)).toFinset.card : ℚ) > 7/10)) = true := by
    rw [List.any_eq_true]
    obtain ⟨sw, hsw, hgt⟩ := hov
    exact ⟨sw, hsw, decide_eq_true hgt⟩
  rw [hany]
  rfl

/-- C3 (amended): in about-text merging a candidate page's text (of more
than 10 words) is discarded as duplicate content exactly when its word-set
overlap with an already-accepted page — intersection size over the
candidate's word-set size — strictly exceeds 70% (not when it merely reaches
70%); consequently when the second of two pages (each with more than 10
words) overlaps the first by strictly more than 70%, the merged about text
contains only the first rendition. -/
theorem about_dedup_strict_threshold :
    (∀ (uniq : List String) (seen : List (List String)) (text : String),
      (pySplit (pyToLower text)).length > 10 →
      (∃ sw ∈ seen,
        (((pySplit (pyToLower text)).toFinset ∩ sw.toFinset).card : ℚ) /
          ((pySplit (pyToLower text)).toFinset.card : ℚ) > 7/10) →
      process_about_step (uniq, seen) text = (uniq, seen)) ∧
    (∀ t1 t2 : String,
      (pySplit (pyToLower t1)).length > 10 →
      (pySplit (pyToLower t2)).length > 10 →
      (((pySplit (pyToLower t2)).toFinset ∩ (pySplit (pyToLower t1)).toFinset).card : ℚ) /
          ((pySplit (pyToLower t2)).toFinset.card : ℚ) > 7/10 →
      process_about_text_list [t1, t2] = [t1] ∧
      process_about_text [t1, t2] = pyTake t1 1200) := by
  refine ⟨process_about_step_discard, ?_⟩
  intro t1 t2 h1 h2 hov
  have e1 : process_about_step ([], []) t1 = ([t1], [pySplit (pyToLower t1)]) := by
    unfold process_about_step
    rw [if_pos h1]
    rfl
  have e2 : process_about_step ([t1], [pySplit (pyToLower t1)]) t2
      = ([t1], [pySplit (pyToLower t1)]) :=
    process_about_step_discard [t1] [pySplit (pyToLower t1)] t2 h2
      ⟨pySplit (pyToLower t1), by simp, hov⟩
  have el : process_about_text_list [t1, t2] = [t1] := by
    unfold process_about_text_list
    rw [List.foldl_cons, e1, List.foldl_cons, e2]
    rfl
  refine ⟨el, ?_⟩
  unfold process_about_text
  rw [el]
  rfl

/-- C3 amended-claim witness: 8 of 11 set-words shared (≈73% > 70%) keeps
only the first rendition. -/
theorem about_dedup_strict_threshold_witness :
    process_about_text_list ["a b c d e f g h p q r r", "a b c d e f g h w x y y"]
      = ["a b c d e f g h p q r r"] ∧
    process_about_text ["a b c d e f g h p q r r", "a b c d e f g h w x y y"]
      = pyTake "a b c d e f g h p q r r" 1200 :=
  about_dedup_strict_threshold.2 "a b c d e f g h p q r r" "a b c d e f g h w x y y"
    (by decide) (by decide) (by decide)

/-! ### Claim theorems: analyze_website -/

/-- C6: when every fetch attempt for the (normalized) seed URL fails — any
mix of HTTP error statuses such as 403 and other exceptions, with no
successful response — `analyze_website` returns `none` (the failure
indicator): the escaping exception is caught by the function's own
`try/except`, so no exception propagates to the caller. -/
theorem analyze_fetch_failure_none (net : String → List FetchOutcome) (url : String)
    (h : ∀ o ∈ net (normalizeUrl url), o.isSuccess = false) :
    analyze_website net url = none := by
  unfold analyze_website
  by_cases hu : url = ""
  · rw [if_pos hu]
  · rw [if_neg hu]
    have hmain : ∀ p, fetch_page_with_retries ((net (normalizeUrl url)).take 3) ≠
        .ok (some p) :=
      fetch_no_success _ (fun o ho => h o (List.mem_of_mem_take ho))
    cases hf : fetch_page_with_retries ((net (normalizeUrl url)).take 3) with
    | error e => simp [analyze_website_body, hf]
    | ok po =>
      cases po with
      | none => simp [analyze_website_body, hf]
      | some p => exact absurd hf (hmain p)

/-- C6 witness: HTTP 403 on all three header strategies. -/
theorem analyze_fetch_failure_none_witness :
    analyze_website (fun _ => [.httpError 403, .httpError 403, .httpError 403])
      "https://example.com" = none :=
  analyze_fetch_failure_none (fun _ => [.httpError 403, .httpError 403, .httpError 403])
    "https://example.com" (by decide)

/-- C7: page discovery returns at most 10 candidate URLs whatever the number
of qualifying links, and every successful analysis lists the (normalized)
seed URL first in `pages_analyzed`, with at most `1 + 10` entries in
total. -/
theorem analyze_pages_bounds :
    (∀ (url base_domain : String) (links : List Link),
      (discover_priority_pages url base_domain links).length ≤ 10) ∧
    (∀ (net : String → List FetchOutcome) (url : String) (a : Analysis),
      analyze_website net url = some a →
      a.pages_analyzed.head? = some (normalizeUrl url) ∧
        a.pages_analyzed.length ≤ 11) := by
  have hcap : ∀ (url base_domain : String) (links : List Link),
      (discover_priority_pages url base_domain links).length ≤ 10 := by
    intro url bd links
    unfold discover_priority_pages
    rw [List.length_map, List.length_take]
    exact min_le_left _ _
  refine ⟨hcap, ?_⟩
  intro net url a ha
  unfold analyze_website at ha
  by_cases hu : url = ""
  · rw [if_pos hu] at ha
    exact absurd ha (by simp)
  · rw [if_neg hu] at ha
    cases hf : fetch_page_with_retries ((net (normalizeUrl url)).take 3) with
    | error e =>
      rw [analyze_website_body, hf] at ha
      exact absurd ha (by simp)
    | ok po =>
      cases po with
      | none =>
        rw [analyze_website_body, hf] at ha
        exact absurd ha (by simp)
      | some mainPage =>
        rw [analyze_website_body, hf] at ha
        obtain ⟨suffix, hs, hl⟩ := fetchLoop_analyzed net
          (discover_priority_pages (normalizeUrl url) (urlDomain (normalizeUrl url))
            mainPage.links)
          [mainPage] [normalizeUrl url]
        have ha2 := Option.some_inj.1 ha
        constructor
        · rw [← ha2]
          show ((fetchPriorityLoop net
            (discover_priority_pages (normalizeUrl url) (urlDomain (normalizeUrl url))
              mainPage.links) [mainPage] [normalizeUrl url]).2).head? = _
          rw [hs]
          rfl
        · rw [← ha2]
          show ((fetchPriorityLoop net
            (discover_priority_pages (normalizeUrl url) (urlDomain (normalizeUrl url))
              mainPage.links) [mainPage] [normalizeUrl url]).2).length ≤ 11
          rw [hs]
          have hll := hcap (normalizeUrl url) (urlDomain (normalizeUrl url)) mainPage.links
          simp only [List.length_append, List.length_cons, List.length_nil]
          omega

/-- C7 witness: a concrete successful analysis (one page, no links) and a
concrete discovery input. -/
theorem analyze_pages_bounds_witness :
    (discover_priority_pages "https://example.com" "example.com"
      [⟨"/about", "About Us"⟩]).length ≤ 10 ∧
    ((⟨"", "", "", "", [], "professional", ["https://example.com"], []⟩ :
        Analysis).pages_analyzed.head? = some (normalizeUrl "https://example.com") ∧
      (⟨"", "", "", "", [], "professional", ["https://example.com"], []⟩ :
        Analysis).pages_analyzed.length ≤ 11) :=
  ⟨analyze_pages_bounds.1 "https://example.com" "example.com" [⟨"/about", "About Us"⟩],
   analyze_pages_bounds.2 (fun _ => [.success ⟨[], none, none, none, [], [], []⟩])
     "https://example.com" ⟨"", "", "", "", [], "professional", ["https://example.com"], []⟩
     (by decide)⟩
